import Mathlib

/-!
Shallow embedding of the job orchestration and output-repair subsystem of the
aitravelagent repository: the `generatePrompt` day-count arithmetic
(`src/app/api/generate-itinerary/route.ts`), the `ensureValidCoordinates`
normalization pass (`src/app/api/job-processor.ts`), the days-array
reconciliation of the synchronous generate-itinerary handler
(`src/unnamed/part_001`), and the dual-tier job store
(`createJob` / `updateJobStatus` / `getJobStatus`, `src/unnamed/part_002`).

JavaScript `Date` arithmetic is modeled over day counts with the civil-date
bijection; machine doubles never overflow in the quantities involved, so
numbers are `ℚ`/`ℤ` (the one wrap-around, the 32-bit string hash, is modeled
with explicit `% 2^32`).  The durable tier (Supabase) is an external
collaborator: each operation takes the outcomes of its remote calls as an
explicit environment argument.
-/

/-! ## Calendar arithmetic

`new Date("YYYY-MM-DD")` parses a date-only ISO string as UTC midnight of
that civil date; `setHours(12, 0, 0, 0)` on the UTC-offset-zero deployment
host moves the instant to noon UTC.  Civil dates are mapped to day counts
with the standard days-from-civil bijection (proleptic Gregorian). -/

/-- Days since 1970-01-01 of the civil date `y-m-d`. -/
def daysFromCivil (y : ℤ) (m d : ℕ) : ℤ :=
  let y2 : ℤ := if m ≤ 2 then y - 1 else y
  let era : ℤ := Int.fdiv y2 400
  let yoe : ℤ := y2 - era * 400
  let mp : ℕ := if 2 < m then m - 3 else m + 9
  let doy : ℕ := (153 * mp + 2) / 5 + d - 1
  let doe : ℤ := yoe * 365 + Int.fdiv yoe 4 - Int.fdiv yoe 100 + doy
  era * 146097 + doe - 719468

/-- Civil date `(y, m, d)` of a days-since-epoch count (inverse of
`daysFromCivil`); used to model `Date.prototype.toISOString`. -/
def civilFromDays (z : ℤ) : ℤ × ℕ × ℕ :=
  let z2 : ℤ := z + 719468
  let era : ℤ := Int.fdiv z2 146097
  let doe : ℕ := (z2 - era * 146097).toNat
  let yoe : ℕ := (doe - doe / 1460 + doe / 36524 - doe / 146096) / 365
  let doy : ℕ := doe - (365 * yoe + yoe / 4 - yoe / 100)
  let mp : ℕ := (5 * doy + 2) / 153
  let d : ℕ := doy - (153 * mp + 2) / 5 + 1
  let m : ℕ := if mp < 10 then mp + 3 else mp - 9
  (era * 400 + yoe + (if m ≤ 2 then 1 else 0), m, d)

/-- Zero-padded decimal rendering, as in ISO date components. -/
def padNat (len n : ℕ) : String :=
  let s := toString n
  String.mk (List.replicate (len - s.length) '0') ++ s

/-- `date.toISOString().split('T')[0]` for an instant lying on day `z`. -/
def isoDateOfDays (z : ℤ) : String :=
  match civilFromDays z with
  | (y, m, d) => padNat 4 y.toNat ++ "-" ++ padNat 2 m ++ "-" ++ padNat 2 d

/-- Numeric value of a decimal digit character. -/
def digitVal (c : Char) : Option ℕ :=
  if c.isDigit then some (c.toNat - 48) else none

/-- Gregorian leap-year test (used to range-check parsed dates the way the
JS `Date` constructor rejects out-of-range ISO components). -/
def isLeapYear (y : ℤ) : Bool :=
  (y % 400 == 0) || ((y % 4 == 0) && (y % 100 != 0))

/-- Number of days in month `m` of year `y`. -/
def daysInMonth (y : ℤ) (m : ℕ) : ℕ :=
  if m = 2 then (if isLeapYear y then 29 else 28)
  else if m = 4 ∨ m = 6 ∨ m = 9 ∨ m = 11 then 30
  else 31

/-- Parse of a date-only ISO string `YYYY-MM-DD` into a civil date, the only
date format the surveyed inputs use; `none` models JS Invalid Date. -/
def parseDateICh : List Char → Option (ℤ × ℕ × ℕ)
  | [y1, y2, y3, y4, h1, m1, m2, h2, d1, d2] =>
    if h1 = '-' ∧ h2 = '-' then
      match digitVal y1, digitVal y2, digitVal y3, digitVal y4,
            digitVal m1, digitVal m2, digitVal d1, digitVal d2 with
      | some a, some b, some c, some d, some e, some f, some g, some h =>
        let y : ℕ := ((a * 10 + b) * 10 + c) * 10 + d
        let m : ℕ := e * 10 + f
        let dd : ℕ := g * 10 + h
        if 1 ≤ m ∧ m ≤ 12 ∧ 1 ≤ dd ∧ dd ≤ daysInMonth (y : ℤ) m then
          some ((y : ℤ), m, dd)
        else none
      | _, _, _, _, _, _, _, _ => none
    else none
  | _ => none

/-- `new Date(s)` restricted to date-only ISO strings. -/
def parseDateISO (s : String) : Option (ℤ × ℕ × ℕ) :=
  parseDateICh s.data

/-- The inclusive day count `durationDays` computed by `generatePrompt`
(route.ts lines 262-274): parse both dates, normalize to noon, take the
millisecond difference, `Math.floor` it to whole days, add one.  `none`
models an unparseable (Invalid Date) input, on which the source produces
`NaN`.  The identical calculation appears in part_000 lines 152-165,
part_001 lines 369-382 and 252-262, and route.ts `createMockItinerary`. -/
def generatePromptDuration (startStr endStr : String) : Option ℤ :=
  match parseDateISO startStr, parseDateISO endStr with
  | some (ys, ms, ds), some (ye, me, de) =>
    let startMs : ℤ := daysFromCivil ys ms ds * 86400000 + 43200000
    let endMs : ℤ := daysFromCivil ye me de * 86400000 + 43200000
    let diffTime : ℤ := endMs - startMs
    let diffDays : ℤ := Int.fdiv diffTime 86400000
    some (diffDays + 1)
  | _, _ => none

/-- Claim C3: for every pair of parseable start/end date strings with end not
before start, the inclusive day count computed by `generatePrompt` equals the
whole-day difference between the noon-normalized dates plus one. -/
theorem generatePrompt_duration_inclusive
    (startStr endStr : String) (ys ye : ℤ) (ms ds me de : ℕ)
    (hs : parseDateISO startStr = some (ys, ms, ds))
    (he : parseDateISO endStr = some (ye, me, de))
    (hle : daysFromCivil ys ms ds ≤ daysFromCivil ye me de) :
    generatePromptDuration startStr endStr =
      some (daysFromCivil ye me de - daysFromCivil ys ms ds + 1) := by
  unfold generatePromptDuration
  rw [hs, he]
  have h1 : (daysFromCivil ye me de * 86400000 + 43200000) -
      (daysFromCivil ys ms ds * 86400000 + 43200000) =
      (daysFromCivil ye me de - daysFromCivil ys ms ds) * 86400000 := by ring
  simp only [h1]
  rw [Int.mul_fdiv_cancel _ (by norm_num)]

/-- Witness for C3: start `2024-06-01` and end `2024-06-03` yield exactly
3 days. -/
theorem generatePrompt_duration_inclusive_witness :
    generatePromptDuration "2024-06-01" "2024-06-03" = some 3 := by
  have h := generatePrompt_duration_inclusive "2024-06-01" "2024-06-03"
    2024 2024 6 1 6 3 (by decide) (by decide) (by decide)
  have h2 : daysFromCivil 2024 6 3 - daysFromCivil 2024 6 1 + 1 = 3 := by decide
  rw [h2] at h
  exact h

/-! ## JavaScript numeric string parsing

`parseFloat` reads a leading optional-sign decimal literal and ignores any
trailing characters; `Number(...)` (used by `getDbCompatibleId`) requires the
whole trimmed string to be numeric and maps the empty string to `0`.  Both
are modeled for the sign/digits/decimal-point forms the repository's inputs
take (hex, exponent and `Infinity` literals are outside the model).  `none`
models `NaN`. -/

/-- Value of a digit list read most-significant-first. -/
def digitsToNat (ds : List ℕ) : ℕ :=
  ds.foldl (fun acc d => acc * 10 + d) 0

/-- Collect the numeric values of a leading run of digit characters. -/
def takeDigits : List Char → List ℕ × List Char
  | [] => ([], [])
  | c :: cs =>
    if c.isDigit then
      let r := takeDigits cs
      ((c.toNat - 48) :: r.1, r.2)
    else ([], c :: cs)

/-- Rational value of an integer part together with a fraction-digit list. -/
def decimalValue (intPart : List ℕ) (fracPart : List ℕ) : ℚ :=
  (digitsToNat intPart : ℚ) + (digitsToNat fracPart : ℚ) / 10 ^ fracPart.length

/-- Leading optional sign. -/
def takeSign : List Char → Bool × List Char
  | '-' :: cs => (true, cs)
  | '+' :: cs => (false, cs)
  | cs => (false, cs)

/-- `parseFloat(s)`: skip leading whitespace, read sign, digits, optional
decimal point and fraction digits, ignore the rest; `NaN` (here `none`) when
no digit is found. -/
def jsParseFloat (s : List Char) : Option ℚ :=
  let body := s.dropWhile (fun c => c = ' ' ∨ c = '\t' ∨ c = '\n')
  let sg := takeSign body
  let ip := takeDigits sg.2
  let fp : List ℕ :=
    match ip.2 with
    | '.' :: rest => (takeDigits rest).1
    | _ => []
  if ip.1 = [] ∧ fp = [] then none
  else some ((if sg.1 then -1 else 1) * decimalValue ip.1 fp)

/-- `Number(s)`: like `jsParseFloat` but the whole trimmed string must be
consumed, and the empty (all-whitespace) string converts to `0`. -/
def jsStringToNumber (s : List Char) : Option ℚ :=
  let body := (s.dropWhile (fun c => c = ' ' ∨ c = '\t' ∨ c = '\n')).reverse
  let trimmed := (body.dropWhile (fun c => c = ' ' ∨ c = '\t' ∨ c = '\n')).reverse
  if trimmed = [] then some 0
  else
    let sg := takeSign trimmed
    let ip := takeDigits sg.2
    let after :=
      match ip.2 with
      | '.' :: rest => takeDigits rest
      | other => ([], other)
    if (ip.1 = [] ∧ after.1 = []) ∨ after.2 ≠ [] then none
    else some ((if sg.1 then -1 else 1) * decimalValue ip.1 after.1)

/-! ## Coordinate normalization (`ensureValidCoordinates`, job-processor.ts)

The parsed LLM output is duck-typed JSON.  An activity's `lat`/`lng` slot can
hold a number, a string, `null`, a boolean, or be absent; `coordinates` can be
absent/falsy, a non-object primitive, or an object; an `activities` element
can itself be a non-object, which the pass skips (`if (!activity || typeof
activity !== 'object') continue`). -/

/-- A JS value found in a `lat`/`lng` field. -/
inductive CVal where
  | num (q : ℚ)
  | str (s : String)
  | nullV
  | undef
  | boolV (b : Bool)
deriving DecidableEq, Repr

/-- `parseFloat(v)` for a non-string argument first converts it to a string:
`undefined`/`null`/booleans all stringify to non-numeric text, hence `NaN`. -/
def parseFloatCVal : CVal → Option ℚ
  | .num q => some q
  | .str s => jsParseFloat s.data
  | .nullV => none
  | .undef => none
  | .boolV _ => none

/-- `x || d` for a JS number `x`: `NaN` (`none`) and `0` are falsy. -/
def jsOrDefault (v : Option ℚ) (d : ℚ) : ℚ :=
  match v with
  | none => d
  | some q => if q = 0 then d else q

/-- The `coordinates` slot of an activity.  `missing` covers an absent field
and every falsy value (`undefined`, `null`, `0`, `''`, `false`); `nonObj`
covers truthy non-objects; `obj` is an object with optional `lat`/`lng`
(an array also lands here, with both fields absent). -/
inductive CoordsVal where
  | missing
  | nonObj (v : CVal)
  | obj (lat lng : Option CVal)
deriving DecidableEq, Repr

/-- Documented default latitude (NYC), job-processor.ts line 311. -/
def latDefault : ℚ := 40.7128

/-- Documented default longitude (NYC), job-processor.ts line 311. -/
def lngDefault : ℚ := -74.0060

/-- The default coordinates object substituted by the pass. -/
def defaultCoords : CoordsVal :=
  .obj (some (.num latDefault)) (some (.num lngDefault))

/-- `if (typeof v !== 'number') v = parseFloat(v) || dflt` for one slot
(job-processor.ts lines 317-328); an absent slot behaves as `undefined`. -/
def coerceCoordVal (v : Option CVal) (dflt : ℚ) : ℚ :=
  match v with
  | some (.num q) => q
  | some w => jsOrDefault (parseFloatCVal w) dflt
  | none => jsOrDefault (parseFloatCVal .undef) dflt

/-- Normalization of one `coordinates` slot (job-processor.ts lines
309-333): absent or non-object values are replaced by the default object;
object values get each non-number component coerced. -/
def fixCoords : CoordsVal → CoordsVal
  | .missing => defaultCoords
  | .nonObj _ => defaultCoords
  | .obj lat lng =>
      .obj (some (.num (coerceCoordVal lat latDefault)))
           (some (.num (coerceCoordVal lng lngDefault)))

/-- An activity object; fields other than `coordinates` are untouched by the
pass and elided from the model. -/
structure Activity where
  coordinates : CoordsVal
deriving DecidableEq, Repr

/-- An element of an `activities` array: either a non-object JSON value
(skipped by the pass) or an activity object. -/
inductive ActVal where
  | nonObjA (tag : ℕ)
  | actA (a : Activity)
deriving DecidableEq, Repr

/-- A day object.  `activities` is `none` when the field is absent or not an
array (both are reset to `[]` by the pass). -/
structure DayVal where
  activities : Option (List ActVal)
deriving DecidableEq, Repr

/-- A parsed candidate itinerary.  `days` is `none` when absent or not an
array. -/
structure ItinVal where
  days : Option (List DayVal)
deriving DecidableEq, Repr

/-- Per-element step of the activity loop: non-objects are skipped
(`continue`), objects get their coordinates normalized. -/
def fixActivity : ActVal → ActVal
  | .nonObjA t => .nonObjA t
  | .actA a => .actA { a with coordinates := fixCoords a.coordinates }

/-- Per-day step: a missing/non-array `activities` becomes `[]`, otherwise
each element is processed. -/
def fixDay (d : DayVal) : DayVal :=
  match d.activities with
  | none => { activities := some [] }
  | some acts => { activities := some (acts.map fixActivity) }

/-- `ensureValidCoordinates` (job-processor.ts lines 289-338) as a pure
rewrite of the itinerary it mutates in place. -/
def ensureValidCoordinates (it : ItinVal) : ItinVal :=
  match it.days with
  | none => { days := some [] }
  | some ds => { days := some (ds.map fixDay) }

/-- A coordinates slot holding numeric `lat` and `lng`. -/
def numericCoords : CoordsVal → Bool
  | .obj (some (.num _)) (some (.num _)) => true
  | _ => false

/-- An activities element carrying numeric coordinates (a non-object element
carries none). -/
def actHasNumericCoords : ActVal → Bool
  | .nonObjA _ => false
  | .actA a => numericCoords a.coordinates

/-- Every activities element of the itinerary has numeric coordinates. -/
def allActsNumeric (it : ItinVal) : Bool :=
  (it.days.getD []).all fun d =>
    (d.activities.getD []).all actHasNumericCoords

/-- An activities element that is either a non-object (exempt from the pass)
or an activity object with numeric coordinates. -/
def objActNumeric : ActVal → Bool
  | .nonObjA _ => true
  | .actA a => numericCoords a.coordinates

/-- Every activity object of the itinerary has numeric coordinates
(non-object elements are exempt). -/
def allObjActsNumeric (it : ItinVal) : Bool :=
  (it.days.getD []).all fun d =>
    (d.activities.getD []).all objActNumeric


/-- `fixCoords` always yields numeric components. -/
theorem numericCoords_fixCoords (c : CoordsVal) : numericCoords (fixCoords c) = true := by
  cases c <;> rfl

/-- Every element of a `fixActivity`-mapped activities list satisfies
`objActNumeric`. -/
theorem objActNumeric_map_fixActivity (acts : List ActVal) :
    (acts.map fixActivity).all objActNumeric = true := by
  induction acts with
  | nil => rfl
  | cons x xs ih =>
    cases x with
    | nonObjA t => simpa [fixActivity, objActNumeric] using ih
    | actA a =>
      simp [fixActivity, objActNumeric, numericCoords_fixCoords, ih]

/-- After the pass, every activity object carries numeric coordinates. -/
theorem allObjActsNumeric_ensureValidCoordinates (it : ItinVal) :
    allObjActsNumeric (ensureValidCoordinates it) = true := by
  unfold ensureValidCoordinates
  cases hdays : it.days with
  | none => rfl
  | some ds =>
    clear hdays
    show allObjActsNumeric ⟨some (ds.map fixDay)⟩ = true
    unfold allObjActsNumeric
    simp only [Option.getD_some]
    induction ds with
    | nil => rfl
    | cons d tl ih =>
      simp only [List.map_cons, List.all_cons, Bool.and_eq_true]
      refine ⟨?_, ih⟩
      cases hact : d.activities with
      | none => simp [fixDay, hact]
      | some acts =>
        simpa [fixDay, hact] using objActNumeric_map_fixActivity acts

/-- Counterexample to claim C8 as stated: a successfully parsed itinerary in
which the sole activities element is a non-object JSON value (which therefore
lacks a `coordinates` field) is passed through unchanged by
`ensureValidCoordinates`, so not every activity of the result has numeric
`lat`/`lng` and the skipped element never receives the default. -/
theorem ensureValidCoordinates_skips_nonobject_activity :
    ensureValidCoordinates ⟨some [⟨some [.nonObjA 0]⟩]⟩ =
      ⟨some [⟨some [.nonObjA 0]⟩]⟩ ∧
    allActsNumeric (ensureValidCoordinates ⟨some [⟨some [.nonObjA 0]⟩]⟩) = false := by
  constructor <;> rfl

/-- Claim C8 (amended): for every parsed itinerary in which some activity
object has an absent/falsy or non-object `coordinates` value, the pass gives
that activity the documented default coordinates (lat 40.7128, lng -74.0060),
every activity object of the result has numeric `lat`/`lng` (non-object
activities elements are skipped unchanged), and the pass is total. -/
theorem ensureValidCoordinates_defaults
    (it : ItinVal) (ds : List DayVal) (i j : ℕ) (d : DayVal)
    (acts : List ActVal) (a : Activity)
    (hdays : it.days = some ds)
    (hd : ds.get? i = some d)
    (hacts : d.activities = some acts)
    (ha : acts.get? j = some (.actA a))
    (hc : a.coordinates = .missing ∨ ∃ v, a.coordinates = .nonObj v) :
    (∃ ds2 d2 acts2, (ensureValidCoordinates it).days = some ds2 ∧
      ds2.get? i = some d2 ∧ d2.activities = some acts2 ∧
      acts2.get? j = some (.actA ⟨defaultCoords⟩)) ∧
    allObjActsNumeric (ensureValidCoordinates it) = true := by
  have hfix : fixCoords a.coordinates = defaultCoords := by
    rcases hc with h | ⟨v, h⟩ <;> rw [h] <;> rfl
  refine ⟨⟨ds.map fixDay, fixDay d, acts.map fixActivity, ?_, ?_, ?_, ?_⟩,
    allObjActsNumeric_ensureValidCoordinates it⟩
  · simp [ensureValidCoordinates, hdays]
  · rw [List.get?_map, hd]; rfl
  · simp [fixDay, hacts]
  · rw [List.get?_map, ha]
    simp [fixActivity, hfix]

/-- Witness for C8: a one-day itinerary whose sole activity has no
`coordinates` field gets the default coordinates, and the repaired result is
fully numeric on its activity objects. -/
theorem ensureValidCoordinates_defaults_witness :
    (∃ ds2 d2 acts2,
      (ensureValidCoordinates ⟨some [⟨some [.actA ⟨.missing⟩]⟩]⟩).days = some ds2 ∧
      ds2.get? 0 = some d2 ∧ d2.activities = some acts2 ∧
      acts2.get? 0 = some (.actA ⟨defaultCoords⟩)) ∧
    allObjActsNumeric (ensureValidCoordinates ⟨some [⟨some [.actA ⟨.missing⟩]⟩]⟩) = true :=
  ensureValidCoordinates_defaults ⟨some [⟨some [.actA ⟨.missing⟩]⟩]⟩
    [⟨some [.actA ⟨.missing⟩]⟩] 0 0 ⟨some [.actA ⟨.missing⟩]⟩
    [.actA ⟨.missing⟩] ⟨.missing⟩ rfl rfl rfl rfl (Or.inl rfl)

/-- The string `"0"` parses to the number `0`. -/
theorem parseFloat_str_zero : parseFloatCVal (.str "0") = some 0 := by
  have h1 : parseFloatCVal (.str "0") = some (1 * decimalValue [0] []) := rfl
  have h2 : (1 : ℚ) * decimalValue [0] [] = 0 := by
    norm_num [decimalValue, digitsToNat, List.foldl]
  rw [h1, h2]

/-- Claim C10: an activity whose `coordinates.lat` is present but not a
number has it replaced by `parseFloat` of the value with fallback to the
default whenever `parseFloat` yields `NaN` or `0`; in particular the string
`"0"` is replaced by the default 40.7128 rather than by the number 0. -/
theorem coordinate_coercion_parseFloat_or_default
    (it : ItinVal) (ds : List DayVal) (i j : ℕ) (d : DayVal)
    (acts : List ActVal) (a : Activity) (v : CVal) (lngf : Option CVal)
    (hdays : it.days = some ds)
    (hd : ds.get? i = some d)
    (hacts : d.activities = some acts)
    (ha : acts.get? j = some (.actA a))
    (hc : a.coordinates = .obj (some v) lngf)
    (hv : ∀ q : ℚ, v ≠ .num q) :
    (∃ ds2 d2 acts2, (ensureValidCoordinates it).days = some ds2 ∧
      ds2.get? i = some d2 ∧ d2.activities = some acts2 ∧
      acts2.get? j = some (.actA ⟨.obj
        (some (.num (jsOrDefault (parseFloatCVal v) latDefault)))
        (some (.num (coerceCoordVal lngf lngDefault)))⟩)) ∧
    jsOrDefault (parseFloatCVal (.str "0")) latDefault = latDefault ∧
    latDefault ≠ (0 : ℚ) := by
  have hco : coerceCoordVal (some v) latDefault =
      jsOrDefault (parseFloatCVal v) latDefault := by
    cases v with
    | num q => exact absurd rfl (hv q)
    | str s => rfl
    | nullV => rfl
    | undef => rfl
    | boolV b => rfl
  refine ⟨⟨ds.map fixDay, fixDay d, acts.map fixActivity, ?_, ?_, ?_, ?_⟩, ?_, ?_⟩
  · simp [ensureValidCoordinates, hdays]
  · rw [List.get?_map, hd]; rfl
  · simp [fixDay, hacts]
  · rw [List.get?_map, ha]
    simp [fixActivity, hc, fixCoords, hco]
  · rw [parseFloat_str_zero]
    simp [jsOrDefault]
  · unfold latDefault
    norm_num

/-- Witness for C10: a `lat` slot holding the string `"0"` ends up as the
default 40.7128. -/
theorem coordinate_coercion_parseFloat_or_default_witness :
    (∃ ds2 d2 acts2,
      (ensureValidCoordinates
        ⟨some [⟨some [.actA ⟨.obj (some (.str "0")) (some (.num 2))⟩]⟩]⟩).days = some ds2 ∧
      ds2.get? 0 = some d2 ∧ d2.activities = some acts2 ∧
      acts2.get? 0 = some (.actA ⟨.obj
        (some (.num (jsOrDefault (parseFloatCVal (.str "0")) latDefault)))
        (some (.num (coerceCoordVal (some (.num 2)) lngDefault)))⟩)) ∧
    jsOrDefault (parseFloatCVal (.str "0")) latDefault = latDefault ∧
    latDefault ≠ (0 : ℚ) :=
  coordinate_coercion_parseFloat_or_default
    ⟨some [⟨some [.actA ⟨.obj (some (.str "0")) (some (.num 2))⟩]⟩]⟩
    [⟨some [.actA ⟨.obj (some (.str "0")) (some (.num 2))⟩]⟩] 0 0
    ⟨some [.actA ⟨.obj (some (.str "0")) (some (.num 2))⟩]⟩
    [.actA ⟨.obj (some (.str "0")) (some (.num 2))⟩]
    ⟨.obj (some (.str "0")) (some (.num 2))⟩ (.str "0") (some (.num 2))
    rfl rfl rfl rfl rfl (fun q h => by cases h)

/-! ## String-to-numeric key mapping (`getDbCompatibleId`, part_002 lines
207-225)

`if (!isNaN(Number(id))) return Number(id)`; otherwise the classic 32-bit
string hash `hash = ((hash << 5) - hash) + charCodeAt(i); hash = hash & hash`
followed by `Math.abs`.  `hash & hash` truncates the double to a signed
32-bit integer, modeled with an explicit `% 2^32`. -/

/-- `ToInt32`: wrap an integer into the signed 32-bit range. -/
def toInt32 (n : ℤ) : ℤ :=
  (n + 2 ^ 31) % 2 ^ 32 - 2 ^ 31

/-- One loop iteration: `hash = ((hash << 5) - hash) + char; hash &= hash`.
The shift operates on the 32-bit truncation of `hash` (already 32-bit here),
the subtraction and addition are exact in doubles, and `& hash` truncates. -/
def jsHashStep (h : ℤ) (c : ℕ) : ℤ :=
  toInt32 (toInt32 (h * 32) - h + c)

/-- The full hash loop over the UTF-16 code units of the id (all ids in this
system are ASCII, where `charCodeAt` agrees with `Char.toNat`). -/
def jsStringHash (cs : List ℕ) : ℤ :=
  cs.foldl jsHashStep 0

/-- `getDbCompatibleId`: a numeric id string becomes its numeric value,
anything else the absolute value of the 32-bit string hash.  There is no
prefix-extraction branch.  The mapping is a pure function of the id, so the
write and read paths trivially agree. -/
def getDbCompatibleId (id : String) : ℚ :=
  match jsStringToNumber id.data with
  | some q => q
  | none => ((jsStringHash (id.data.map Char.toNat)).natAbs : ℚ)

set_option maxRecDepth 4000 in
/-- Counterexample to claim C7 as stated: the id `job_1700000000000` has the
recognizable `job_<timestamp>` shape, but its key is the string hash
106756280, not the extracted timestamp 1700000000000 — `getDbCompatibleId`
has no prefix-extraction branch. -/
theorem getDbCompatibleId_hashes_job_ids :
    getDbCompatibleId "job_1700000000000" = (106756280 : ℚ) ∧
    getDbCompatibleId "job_1700000000000" ≠ (1700000000000 : ℚ) := by
  have h1 : jsStringToNumber "job_1700000000000".data = none := by decide
  have h2 : (jsStringHash ("job_1700000000000".data.map Char.toNat)).natAbs =
      106756280 := by decide
  have h3 : getDbCompatibleId "job_1700000000000" = ((106756280 : ℕ) : ℚ) := by
    rw [getDbCompatibleId, h1, h2]
  constructor
  · rw [h3]; norm_num
  · rw [h3]; norm_num

/-- Claim C7 (amended): `getDbCompatibleId` is a pure function (hence
deterministic and identical on the write and read paths); a fully numeric id
string maps to its numeric value, and every other id — including
`job_<timestamp>` handles, for which no prefix segment is extracted — maps
through the stable 32-bit string hash to a non-negative integer. -/
theorem getDbCompatibleId_spec (id : String) :
    (∀ q : ℚ, jsStringToNumber id.data = some q → getDbCompatibleId id = q) ∧
    (jsStringToNumber id.data = none →
      getDbCompatibleId id =
        ((jsStringHash (id.data.map Char.toNat)).natAbs : ℚ) ∧
      ∃ n : ℕ, getDbCompatibleId id = (n : ℚ)) := by
  constructor
  · intro q hq
    rw [getDbCompatibleId, hq]
  · intro hn
    refine ⟨by rw [getDbCompatibleId, hn], ⟨_, by rw [getDbCompatibleId, hn]⟩⟩

/-- Witness for C7: the non-numeric id `job_5` maps to the absolute hash, a
natural number. -/
theorem getDbCompatibleId_spec_witness :
    getDbCompatibleId "job_5" =
      ((jsStringHash ("job_5".data.map Char.toNat)).natAbs : ℚ) ∧
    ∃ n : ℕ, getDbCompatibleId "job_5" = (n : ℚ) :=
  (getDbCompatibleId_spec "job_5").2 (by decide)

/-! ## The dual-tier job store (part_002)

The primary tier is the module-level `inMemoryJobs` map; the durable tier is
the Supabase client.  A store state carries the map, the
`isSupabaseConfigured` constant and the `supabaseDisabled` latch.  Each
operation receives the outcomes of the remote calls it would issue as an
explicit environment; `thrown` outcomes model the awaited promise rejecting
(caught by the source's `try`/`catch`), `err` outcomes model a resolved
`{ error }` response. -/

/-- The observable shape of a caught JS error: whether it is a `TypeError`
and whether its message contains `fetch failed` / `network error`. -/
structure JsError where
  isTypeError : Bool
  msgFetchFailed : Bool
  msgNetworkError : Bool
deriving DecidableEq, Repr

/-- The connectivity-class test of `handleSupabaseError` (part_002 lines
244-245): a `TypeError` whose message mentions `fetch failed` or
`network error`. -/
def isConnectivityError (e : JsError) : Bool :=
  e.isTypeError && (e.msgFetchFailed || e.msgNetworkError)

/-- A `result` payload (`any` in the source): an opaque primitive with its
JS truthiness, the `{itinerary, prompt}` object attached on completion, or
the `{rawContent, errorMessage}` diagnostic attached on parse failure. -/
inductive JsAny where
  | prim (truthy : Bool) (tag : ℕ)
  | itinRes (it : ItinVal) (prompt : String)
  | rawDiag (rawContent errorMessage : String)
deriving DecidableEq, Repr

/-- JS truthiness of a `result` payload (objects are always truthy). -/
def jsTruthy : JsAny → Bool
  | .prim b _ => b
  | .itinRes _ _ => true
  | .rawDiag _ _ => true

/-- `x || undefined` for a `result` payload. -/
def resultOrUndefined (v : Option JsAny) : Option JsAny :=
  match v with
  | none => none
  | some r => if jsTruthy r then some r else none

/-- `s || undefined` (and `s || null`) for an optional string: the empty
string is falsy. -/
def strOrUndefined (v : Option String) : Option String :=
  match v with
  | none => none
  | some s => if s = "" then none else some s

/-- A stored job record (the `JobData` type of part_002). -/
structure JobData where
  id : String
  status : String
  result : Option JsAny
  error : Option String
  created_at : Option String
  updated_at : String
deriving DecidableEq, Repr

/-- The mutable module state of part_002: the in-memory primary tier, the
`isSupabaseConfigured` constant, and the `supabaseDisabled` latch. -/
structure StoreState where
  configured : Bool
  supabaseDisabled : Bool
  mem : String → Option JobData

/-- Write one record into the primary tier. -/
def setMem (s : StoreState) (jobId : String) (j : JobData) : StoreState :=
  { s with mem := fun x => if x = jobId then some j else s.mem x }

/-- `shouldUseSupabase()` (part_002 lines 228-230). -/
def shouldUseSupabase (s : StoreState) : Bool :=
  s.configured && !s.supabaseDisabled

/-- `handleSupabaseError` (part_002 lines 233-249): latch `supabaseDisabled`
exactly on connectivity-class errors. -/
def handleSupabaseError (s : StoreState) (e : JsError) : StoreState :=
  if isConnectivityError e then { s with supabaseDisabled := true } else s

/-- Outcome of an awaited durable-tier write (insert/upsert): resolved
without error, resolved with a `{ error }` body, or rejected. -/
inductive WriteOutcome where
  | okW
  | errW (e : JsError)
  | thrownW (e : JsError)
deriving DecidableEq, Repr

/-- Outcome of the `created_at` lookup inside `updateJobStatus` (part_002
lines 324-339): the `{ data }` it resolves with, or a rejection — which the
surrounding inner `try`/`catch` only logs. -/
inductive SelOutcome where
  | value (createdAt : Option String)
  | thrownSel (e : JsError)
deriving DecidableEq, Repr

/-- Environment of one `updateJobStatus` call: the outcomes of its two
durable-tier requests. -/
structure UpdateEnv where
  sel : SelOutcome
  upsert : WriteOutcome
deriving DecidableEq, Repr

/-- Environment of one `createJob` call: the outcome of its insert. -/
structure CreateEnv where
  ins : WriteOutcome
deriving DecidableEq, Repr

/-- The row shape read from the durable tier. -/
structure DbRow where
  status : String
  result : Option JsAny
  error : Option String
  created_at : Option String
  updated_at : String
deriving DecidableEq, Repr

/-- The upsert payload `updateJobStatus` sends to the durable tier (not
persisted by the model — the durable tier is an external collaborator). -/
structure DbUpsert where
  id : ℚ
  status : String
  result : Option JsAny
  error : Option String
  created_at : Option String
  updated_at : String
deriving DecidableEq, Repr

/-- The in-memory record built at the top of `updateJobStatus` (part_002
lines 258-265): `result`/`error` go through `|| undefined`, `created_at`
is preserved from an existing record via `|| now`. -/
def mkMemoryJob (s : StoreState) (jobId status : String) (res : Option JsAny)
    (err : Option String) (now : String) : JobData :=
  { id := jobId
    status := status
    result := resultOrUndefined res
    error := strOrUndefined err
    created_at :=
      match s.mem jobId with
      | some j =>
          match j.created_at with
          | some c => if c = "" then some now else some c
          | none => some now
      | none => some now
    updated_at := now }

/-- `updateJobStatus` (part_002 lines 252-373).  The memory write happens
first; with the durable tier skipped the call returns `true` immediately;
otherwise the `created_at` lookup result feeds the upsert payload (a
rejection there is caught and only logged), and a rejected upsert reaches
the outer `catch`, i.e. `handleSupabaseError`.  The call returns `true` on
every path.  The third component reports the attempted upsert payload. -/
def updateJobStatus (s : StoreState) (jobId status : String)
    (res : Option JsAny) (err : Option String) (now : String)
    (env : UpdateEnv) : StoreState × Bool × Option DbUpsert :=
  let m := mkMemoryJob s jobId status res err now
  let s1 := setMem s jobId m
  if !shouldUseSupabase s1 then (s1, true, none)
  else
    let safeResult : Option JsAny :=
      match res with
      | some r => if jsTruthy r then some r else none
      | none => none
    let created : Option String :=
      match env.sel with
      | .value (some c) => if c = "" then m.created_at else some c
      | .value none => m.created_at
      | .thrownSel _ => m.created_at
    let payload : DbUpsert :=
      { id := getDbCompatibleId jobId
        status := status
        result := safeResult
        error := strOrUndefined err
        created_at := created
        updated_at := now }
    match env.upsert with
    | .thrownW e => (handleSupabaseError s1 e, true, some payload)
    | .errW _ => (s1, true, some payload)
    | .okW => (s1, true, some payload)

/-- `createJob` (part_002 lines 492-540): write the fresh `queued` record to
memory, return `true` early when the durable tier is skipped, otherwise
attempt the insert — a resolved error is only logged, a rejection goes to
`handleSupabaseError` — and return `true` regardless. -/
def createJob (s : StoreState) (jobId now : String) (env : CreateEnv) :
    StoreState × Bool :=
  let m : JobData :=
    { id := jobId, status := "queued", result := none, error := none
      created_at := some now, updated_at := now }
  let s1 := setMem s jobId m
  if !shouldUseSupabase s1 then (s1, true)
  else
    match env.ins with
    | .thrownW e => (handleSupabaseError s1 e, true)
    | .errW _ => (s1, true)
    | .okW => (s1, true)

/-- What `getJobStatus` returns to its caller. -/
structure JobView where
  status : String
  result : Option JsAny
  error : Option String
deriving DecidableEq, Repr

/-- The view of an in-memory record. -/
def memView (m : JobData) : JobView :=
  { status := m.status, result := m.result, error := m.error }

/-- The view of a durable-tier row. -/
def rowView (r : DbRow) : JobView :=
  { status := r.status, result := r.result, error := r.error }

/-- The record written back into the primary tier when a durable read
succeeds (part_002 lines 449-456). -/
def syncFromRow (jobId : String) (r : DbRow) : JobData :=
  { id := jobId, status := r.status, result := r.result, error := r.error
    created_at := r.created_at, updated_at := r.updated_at }

/-- Outcome of one durable read attempt in `getJobStatus`: a resolved row or
absence, a resolved `{ error }`, or a rejection. -/
inductive GetOutcome where
  | okG (row : Option DbRow)
  | errG (e : JsError)
  | thrownG (e : JsError)
deriving DecidableEq, Repr

/-- `maxRetries` of `getJobStatus` (part_002 line 395). -/
def maxRetries : ℕ := 3

/-- The retry loop of `getJobStatus` (part_002 lines 398-481), with
`attempts` the index of the next attempt and `fuel` the remaining
iterations (`maxRetries - attempts`); the `fuel = 0` base case is the
source's unreachable trailing fallback return.  A resolved error or a
rejection consumes an attempt and retries until `attempts` reaches
`maxRetries`, at which point `handleSupabaseError` runs and the in-memory
view is returned; an absent row falls back to the in-memory view; a present
row is promoted into the primary tier and returned. -/
def getLoop (jobId : String) (m : JobData) (env : ℕ → GetOutcome)
    (s : StoreState) : ℕ → ℕ → StoreState × JobView
  | _, 0 => (s, memView m)
  | attempts, fuel + 1 =>
    match env attempts with
    | .okG none => (s, memView m)
    | .okG (some row) => (setMem s jobId (syncFromRow jobId row), rowView row)
    | .errG e =>
        if attempts + 1 < maxRetries then
          getLoop jobId m env s (attempts + 1) fuel
        else (handleSupabaseError s e, memView m)
    | .thrownG e =>
        if attempts + 1 < maxRetries then
          getLoop jobId m env s (attempts + 1) fuel
        else (handleSupabaseError s e, memView m)

/-- `getJobStatus` (part_002 lines 376-489): the primary tier is read first
and an absent record returns the `not_found` sentinel without touching the
durable tier; with the durable tier skipped the in-memory view is returned;
otherwise the bounded retry loop runs. -/
def getJobStatus (s : StoreState) (jobId : String) (env : ℕ → GetOutcome) :
    StoreState × JobView :=
  match s.mem jobId with
  | none => (s, { status := "not_found", result := none, error := none })
  | some m =>
    if !shouldUseSupabase s then (s, memView m)
    else getLoop jobId m env s 0 maxRetries

/-- One call against the store: `createJob` or `updateJobStatus`, with the
durable-tier outcomes it observes. -/
inductive StoreCall where
  | createC (jobId now : String) (env : CreateEnv)
  | updateC (jobId status : String) (res : Option JsAny) (err : Option String)
      (now : String) (env : UpdateEnv)

/-- Apply one call to the store state. -/
def applyCall (s : StoreState) : StoreCall → StoreState
  | .createC jobId now env => (createJob s jobId now env).1
  | .updateC jobId status res err now env =>
      (updateJobStatus s jobId status res err now env).1

/-- Run a sequence of calls. -/
def runCalls (s : StoreState) (cs : List StoreCall) : StoreState :=
  cs.foldl applyCall s

/-- Truthiness of an optional `result` payload. -/
def truthyOpt : Option JsAny → Bool
  | none => false
  | some r => jsTruthy r

/-- An optional `error` string that is absent or falsy (empty). -/
def blankOpt : Option String → Bool
  | none => true
  | some s => s == ""

/-- The call discipline the generation pipeline mostly follows: a truthy
`result` only with status `completed`, a non-empty `error` only with status
`failed`, never both. -/
def disciplinedCall : StoreCall → Bool
  | .createC _ _ _ => true
  | .updateC _ status res err _ _ =>
      if status = "completed" then truthyOpt res && blankOpt err
      else if status = "failed" then !truthyOpt res && !blankOpt err
      else !truthyOpt res && blankOpt err

/-- The claimed field/status coupling of a stored record. -/
def jobInvB (j : JobData) : Bool :=
  (j.result.isSome == (j.status == "completed")) &&
  (j.error.isSome == (j.status == "failed")) &&
  !(j.result.isSome && j.error.isSome)

/-- The claimed field/status coupling of a returned view. -/
def viewInvB (v : JobView) : Bool :=
  (v.result.isSome == (v.status == "completed")) &&
  (v.error.isSome == (v.status == "failed")) &&
  !(v.result.isSome && v.error.isSome)

/-- The coupling for a durable-tier row. -/
def rowInvB (r : DbRow) : Bool :=
  viewInvB (rowView r)

/-- Every record of the primary tier satisfies the coupling. -/
def memInv (s : StoreState) : Prop :=
  ∀ id j, s.mem id = some j → jobInvB j = true

/-- The completion step of `processItineraryJob` (job-processor.ts lines
219-240): run `ensureValidCoordinates` over the parsed itinerary and store
status `completed` with the `{itinerary, prompt}` result. -/
def processItineraryJobComplete (s : StoreState) (jobId : String)
    (it : ItinVal) (prompt now : String) (env : UpdateEnv) : StoreState :=
  (updateJobStatus s jobId "completed"
    (some (.itinRes (ensureValidCoordinates it) prompt)) none now env).1

/-- The parse-failure step of `processItineraryJob` (job-processor.ts lines
259-267): store status `failed` with BOTH an `error` string and a
`{rawContent, errorMessage}` diagnostic `result` (`rawContent` is the
already-truncated sample). -/
def processItineraryJobParseFail (s : StoreState)
    (jobId rawContent errorMessage now : String) (env : UpdateEnv) :
    StoreState :=
  (updateJobStatus s jobId "failed" (some (.rawDiag rawContent errorMessage))
    (some "Unable to parse the generated itinerary data") now env).1

/-- `handleSupabaseError` never touches the primary tier. -/
theorem handleSupabaseError_mem (s : StoreState) (e : JsError) :
    (handleSupabaseError s e).mem = s.mem := by
  unfold handleSupabaseError
  split <;> rfl

/-- `handleSupabaseError` never touches the configured flag. -/
theorem handleSupabaseError_configured (s : StoreState) (e : JsError) :
    (handleSupabaseError s e).configured = s.configured := by
  unfold handleSupabaseError
  split <;> rfl

/-- `updateJobStatus` writes exactly the new in-memory record to the primary
tier, on every durable-tier outcome. -/
theorem updateJobStatus_fst_mem (s : StoreState) (jobId status : String)
    (res : Option JsAny) (err : Option String) (now : String)
    (env : UpdateEnv) :
    ((updateJobStatus s jobId status res err now env).1).mem =
      (setMem s jobId (mkMemoryJob s jobId status res err now)).mem := by
  unfold updateJobStatus
  dsimp only
  split
  · rfl
  · split <;> simp [handleSupabaseError_mem]

/-- `createJob` writes exactly the fresh `queued` record to the primary
tier, on every durable-tier outcome. -/
theorem createJob_fst_mem (s : StoreState) (jobId now : String)
    (env : CreateEnv) :
    ((createJob s jobId now env).1).mem =
      (setMem s jobId
        { id := jobId, status := "queued", result := none, error := none
          created_at := some now, updated_at := now }).mem := by
  unfold createJob
  dsimp only
  split
  · rfl
  · split <;> simp [handleSupabaseError_mem]

/-- Counterexample to claim C2 as stated: a job stored as `completed`
through `updateJobStatus` is overwritten to `processing` by a subsequent
`updateJobStatus(id, 'processing')` call — there is no terminal-state
guard. -/
theorem updateJobStatus_overwrites_completed :
    Option.map JobData.status
      (((updateJobStatus
          ((updateJobStatus ⟨false, false, fun _ => none⟩ "job_1" "completed"
            (some (JsAny.prim true 0)) none "t1" ⟨.value none, .okW⟩).1)
          "job_1" "processing" none none "t2" ⟨.value none, .okW⟩).1).mem "job_1") =
      some "processing" ∧
    Option.map JobData.status
      (((updateJobStatus ⟨false, false, fun _ => none⟩ "job_1" "completed"
          (some (JsAny.prim true 0)) none "t1" ⟨.value none, .okW⟩).1).mem "job_1") =
      some "completed" := by
  constructor <;> rfl

/-- Claim C2 (amended): `updateJobStatus` applies the requested status
unconditionally — for every prior state, including one whose stored status
is terminal (`completed` or `failed`), the stored status after the call is
the requested one; no transition is validated or ignored. -/
theorem updateJobStatus_unconditional (s : StoreState)
    (jobId status : String) (res : Option JsAny) (err : Option String)
    (now : String) (env : UpdateEnv) :
    Option.map JobData.status
      (((updateJobStatus s jobId status res err now env).1).mem jobId) =
      some status := by
  rw [updateJobStatus_fst_mem]
  simp [setMem, mkMemoryJob]

/-- The optional result survives `|| undefined` exactly when truthy. -/
theorem isSome_resultOrUndefined (res : Option JsAny) :
    (resultOrUndefined res).isSome = truthyOpt res := by
  cases res with
  | none => rfl
  | some r =>
    show (if jsTruthy r then some r else none).isSome = jsTruthy r
    cases hj : jsTruthy r <;> simp [hj]

/-- The optional error survives `|| undefined` exactly when non-blank. -/
theorem isSome_strOrUndefined (err : Option String) :
    (strOrUndefined err).isSome = !blankOpt err := by
  cases err with
  | none => rfl
  | some s =>
    show (if s = "" then none else some s).isSome = !(s == "")
    by_cases hs : s = "" <;> simp [hs]

/-- A disciplined `updateJobStatus` payload yields a record satisfying the
field/status coupling. -/
theorem jobInvB_mkMemoryJob (s : StoreState) (jobId status : String)
    (res : Option JsAny) (err : Option String) (now : String)
    (h : (if status = "completed" then truthyOpt res && blankOpt err
          else if status = "failed" then !truthyOpt res && !blankOpt err
          else !truthyOpt res && blankOpt err) = true) :
    jobInvB (mkMemoryJob s jobId status res err now) = true := by
  have hr := isSome_resultOrUndefined res
  have he := isSome_strOrUndefined err
  by_cases hc : status = "completed"
  · rw [if_pos hc] at h
    simp only [Bool.and_eq_true] at h
    simp [jobInvB, mkMemoryJob, hr, he, hc, h.1, h.2]
  · rw [if_neg hc] at h
    by_cases hf : status = "failed"
    · rw [if_pos hf] at h
      simp only [Bool.and_eq_true, Bool.not_eq_true'] at h
      simp [jobInvB, mkMemoryJob, hr, he, hf, h.1, h.2]
    · rw [if_neg hf] at h
      simp only [Bool.and_eq_true, Bool.not_eq_true'] at h
      simp [jobInvB, mkMemoryJob, hr, he, hc, hf, h.1, h.2]

/-- Transport of the primary-tier invariant along an equal map. -/
theorem memInv_of_mem_eq (s1 s2 : StoreState) (h : s1.mem = s2.mem)
    (h2 : memInv s2) : memInv s1 := by
  intro id j hj
  exact h2 id j (by rw [← h]; exact hj)

/-- Writing one coupling-respecting record preserves the invariant. -/
theorem memInv_setMem (s : StoreState) (jobId : String) (j : JobData)
    (h : memInv s) (hj : jobInvB j = true) : memInv (setMem s jobId j) := by
  intro id2 j2 hj2
  by_cases he : id2 = jobId
  · have : some j = some j2 := by
      simpa [setMem, he] using hj2
    cases this
    exact hj
  · exact h id2 j2 (by simpa [setMem, he] using hj2)

/-- A disciplined call preserves the primary-tier invariant. -/
theorem memInv_applyCall (s : StoreState) (c : StoreCall) (h : memInv s)
    (hd : disciplinedCall c = true) : memInv (applyCall s c) := by
  cases c with
  | createC jobId now env =>
    refine memInv_of_mem_eq _ _ (createJob_fst_mem s jobId now env) ?_
    refine memInv_setMem s jobId _ h ?_
    simp [jobInvB]
  | updateC jobId status res err now env =>
    refine memInv_of_mem_eq _ _
      (updateJobStatus_fst_mem s jobId status res err now env) ?_
    refine memInv_setMem s jobId _ h ?_
    exact jobInvB_mkMemoryJob s jobId status res err now hd

/-- A disciplined call list preserves the primary-tier invariant. -/
theorem memInv_runCalls (s : StoreState) (cs : List StoreCall) (h : memInv s)
    (hd : ∀ c ∈ cs, disciplinedCall c = true) : memInv (runCalls s cs) := by
  induction cs generalizing s with
  | nil => exact h
  | cons c tl ih =>
    exact ih (applyCall s c)
      (memInv_applyCall s c h (hd c (List.mem_cons_self c tl)))
      (fun c2 hc2 => hd c2 (List.mem_cons_of_mem c hc2))

/-- The coupling transfers from a record to its view. -/
theorem viewInvB_memView (m : JobData) : viewInvB (memView m) = jobInvB m := rfl

/-- The retry loop returns a coupling-respecting view whenever the cached
record and every promotable row respect it. -/
theorem viewInv_getLoop (jobId : String) (m : JobData) (env : ℕ → GetOutcome)
    (hm : jobInvB m = true)
    (hrow : ∀ k row, env k = GetOutcome.okG (some row) → rowInvB row = true) :
    ∀ fuel attempts (s : StoreState),
      viewInvB (getLoop jobId m env s attempts fuel).2 = true := by
  intro fuel
  induction fuel with
  | zero =>
    intro attempts s
    rw [getLoop, viewInvB_memView]
    exact hm
  | succ n ih =>
    intro attempts s
    rw [getLoop]
    cases henv : env attempts with
    | okG row =>
      cases row with
      | none => dsimp only; rw [viewInvB_memView]; exact hm
      | some r => dsimp only; exact hrow attempts r henv
    | errG e =>
      dsimp only
      by_cases hlt : attempts + 1 < maxRetries
      · rw [if_pos hlt]; exact ih (attempts + 1) s
      · rw [if_neg hlt, viewInvB_memView]; exact hm
    | thrownG e =>
      dsimp only
      by_cases hlt : attempts + 1 < maxRetries
      · rw [if_pos hlt]; exact ih (attempts + 1) s
      · rw [if_neg hlt, viewInvB_memView]; exact hm

/-- `getJobStatus` returns a coupling-respecting view on every
coupling-respecting state and durable environment. -/
theorem viewInv_getJobStatus (s : StoreState) (jobId : String)
    (env : ℕ → GetOutcome) (h : memInv s)
    (hrow : ∀ k row, env k = GetOutcome.okG (some row) → rowInvB row = true) :
    viewInvB (getJobStatus s jobId env).2 = true := by
  rw [getJobStatus]
  cases hmem : s.mem jobId with
  | none => rfl
  | some m =>
    dsimp only
    have hm : jobInvB m = true := h jobId m hmem
    by_cases hu : shouldUseSupabase s
    · simp only [hu, Bool.not_true, Bool.false_eq_true, if_false]
      exact viewInv_getLoop jobId m env hm hrow maxRetries 0 s
    · simp only [Bool.not_eq_true] at hu
      simp only [hu, Bool.not_false, if_true]
      rw [viewInvB_memView]
      exact hm

/-- Counterexample to claim C1 as stated: the parse-failure path of
`processItineraryJob` calls `updateJobStatus(id, 'failed', {error, result})`
so the stored record has BOTH `result` (the raw-content diagnostic) and
`error` populated, violating the claimed exclusivity. -/
theorem updateJobStatus_failed_both_fields :
    Option.map jobInvB
      ((processItineraryJobParseFail ⟨false, false, fun _ => none⟩ "job_1"
        "raw" "msg" "t" ⟨.value none, .okW⟩).mem "job_1") = some false ∧
    Option.map (fun j => j.result.isSome && j.error.isSome)
      ((processItineraryJobParseFail ⟨false, false, fun _ => none⟩ "job_1"
        "raw" "msg" "t" ⟨.value none, .okW⟩).mem "job_1") = some true := by
  constructor <;> rfl

/-- Claim C1 (amended): `updateJobStatus` couples the stored fields to the
payload, not to the status — `result` is stored iff a truthy result was
passed and `error` iff a non-empty error was passed.  For every call
sequence that follows the discipline (truthy result only with `completed`,
non-empty error only with `failed`, never both — which the pipeline follows
everywhere except its parse-failure path), every primary-tier record has
`result` iff `completed`, `error` iff `failed`, never both, and every
`getJobStatus` read-back whose promotable durable rows also respect the
coupling returns a view respecting it. -/
theorem jobStore_disciplined_inv (s0 : StoreState) (h0 : memInv s0)
    (cs : List StoreCall) (hd : ∀ c ∈ cs, disciplinedCall c = true) :
    memInv (runCalls s0 cs) ∧
    (∀ jobId env,
      (∀ k row, env k = GetOutcome.okG (some row) → rowInvB row = true) →
      viewInvB (getJobStatus (runCalls s0 cs) jobId env).2 = true) := by
  have hinv := memInv_runCalls s0 cs h0 hd
  exact ⟨hinv, fun jobId env hrow =>
    viewInv_getJobStatus (runCalls s0 cs) jobId env hinv hrow⟩

/-- Witness for C1: create, complete and read back one job; the read-back
view respects the coupling. -/
theorem jobStore_disciplined_inv_witness :
    viewInvB (getJobStatus
      (runCalls ⟨true, false, fun _ => none⟩
        [StoreCall.createC "job_1" "t0" ⟨.okW⟩,
         StoreCall.updateC "job_1" "completed" (some (JsAny.prim true 0)) none
           "t1" ⟨.value none, .okW⟩])
      "job_1" (fun _ => GetOutcome.okG none)).2 = true :=
  (jobStore_disciplined_inv ⟨true, false, fun _ => none⟩
    (fun _ _ h => Option.noConfusion h)
    [StoreCall.createC "job_1" "t0" ⟨.okW⟩,
     StoreCall.updateC "job_1" "completed" (some (JsAny.prim true 0)) none
       "t1" ⟨.value none, .okW⟩]
    (by decide)).2
    "job_1" (fun _ => GetOutcome.okG none)
    (fun k row h => by simp at h)

/-- `updateJobStatus` returns `true` on every path. -/
theorem updateJobStatus_returns_true (s : StoreState) (jobId status : String)
    (res : Option JsAny) (err : Option String) (now : String)
    (env : UpdateEnv) :
    (updateJobStatus s jobId status res err now env).2.1 = true := by
  unfold updateJobStatus
  dsimp only
  split
  · rfl
  · split <;> rfl

/-- `createJob` returns `true` on every path. -/
theorem createJob_returns_true (s : StoreState) (jobId now : String)
    (env : CreateEnv) :
    (createJob s jobId now env).2 = true := by
  unfold createJob
  dsimp only
  split
  · rfl
  · split <;> rfl

/-- When every durable read attempt rejects, the retry loop always ends in
the in-memory fallback view. -/
theorem getLoop_all_fail (jobId : String) (m : JobData)
    (env : ℕ → GetOutcome) (s : StoreState)
    (hfail : ∀ k, ∃ e, env k = GetOutcome.thrownG e) :
    ∀ fuel attempts, (getLoop jobId m env s attempts fuel).2 = memView m := by
  intro fuel
  induction fuel with
  | zero => intro attempts; rfl
  | succ n ih =>
    intro attempts
    obtain ⟨e, he⟩ := hfail attempts
    rw [getLoop, he]
    dsimp only
    by_cases hlt : attempts + 1 < maxRetries
    · rw [if_pos hlt]; exact ih (attempts + 1)
    · rw [if_neg hlt]

/-- Claim C4: no store operation propagates an exception (each is a total
function of its durable-tier environment): for every input and every
durable outcome, `updateJobStatus` and `createJob` write the record to the
primary tier and return `true`, and when the durable tier always rejects
with a connectivity error, `getJobStatus` returns exactly the value most
recently written for the id. -/
theorem jobStore_no_exceptions_memory_fallback (s : StoreState)
    (jobId status : String) (res : Option JsAny) (err : Option String)
    (now : String) (uenv : UpdateEnv) (cenv : CreateEnv)
    (genv : ℕ → GetOutcome)
    (hfail : ∀ k, ∃ e, genv k = GetOutcome.thrownG e ∧
      isConnectivityError e = true) :
    (updateJobStatus s jobId status res err now uenv).2.1 = true ∧
    (createJob s jobId now cenv).2 = true ∧
    ((updateJobStatus s jobId status res err now uenv).1).mem jobId =
      some (mkMemoryJob s jobId status res err now) ∧
    (getJobStatus (updateJobStatus s jobId status res err now uenv).1 jobId
        genv).2 = memView (mkMemoryJob s jobId status res err now) := by
  have hm : ((updateJobStatus s jobId status res err now uenv).1).mem jobId =
      some (mkMemoryJob s jobId status res err now) := by
    rw [updateJobStatus_fst_mem]
    simp [setMem]
  refine ⟨updateJobStatus_returns_true s jobId status res err now uenv,
    createJob_returns_true s jobId now cenv, hm, ?_⟩
  rw [getJobStatus, hm]
  dsimp only
  by_cases hu : shouldUseSupabase (updateJobStatus s jobId status res err now uenv).1
  · simp only [hu, Bool.not_true, Bool.false_eq_true, if_false]
    exact getLoop_all_fail jobId _ genv _
      (fun k => (hfail k).elim (fun e hk => ⟨e, hk.1⟩)) maxRetries 0
  · simp only [Bool.not_eq_true] at hu
    simp only [hu, Bool.not_false, if_true]

/-- Witness for C4: a concrete write followed by a read against an
always-rejecting durable tier returns the written view. -/
theorem jobStore_no_exceptions_memory_fallback_witness :
    (updateJobStatus ⟨true, false, fun _ => none⟩ "job_1" "processing" none
      none "t1" ⟨.value none, .okW⟩).2.1 = true ∧
    (createJob ⟨true, false, fun _ => none⟩ "job_1" "t1" ⟨.okW⟩).2 = true ∧
    ((updateJobStatus ⟨true, false, fun _ => none⟩ "job_1" "processing" none
      none "t1" ⟨.value none, .okW⟩).1).mem "job_1" =
      some (mkMemoryJob ⟨true, false, fun _ => none⟩ "job_1" "processing"
        none none "t1") ∧
    (getJobStatus (updateJobStatus ⟨true, false, fun _ => none⟩ "job_1"
        "processing" none none "t1" ⟨.value none, .okW⟩).1 "job_1"
        (fun _ => GetOutcome.thrownG ⟨true, true, false⟩)).2 =
      memView (mkMemoryJob ⟨true, false, fun _ => none⟩ "job_1" "processing"
        none none "t1") :=
  jobStore_no_exceptions_memory_fallback ⟨true, false, fun _ => none⟩
    "job_1" "processing" none none "t1" ⟨.value none, .okW⟩ ⟨.okW⟩
    (fun _ => GetOutcome.thrownG ⟨true, true, false⟩)
    (fun _ => ⟨⟨true, true, false⟩, rfl, rfl⟩)

/-- Counterexample to claim C5 as stated: a record present in the durable
tier (the environment would resolve every read with a `completed` row) but
absent from the primary tier is NOT found — `getJobStatus` returns the
`not_found` sentinel without consulting the durable tier. -/
theorem getJobStatus_misses_durable_only_record :
    (getJobStatus ⟨true, false, fun _ => none⟩ "job_1"
      (fun _ => GetOutcome.okG (some
        ⟨"completed", some (JsAny.prim true 0), none, some "t0", "t0"⟩))).2 =
      ⟨"not_found", none, none⟩ := by
  rfl

/-- Only the first `maxRetries` durable outcomes can influence the loop. -/
theorem getLoop_env_congr (jobId : String) (m : JobData)
    (env env2 : ℕ → GetOutcome) (s : StoreState) :
    ∀ fuel attempts,
      (∀ k, attempts ≤ k → k < attempts + fuel → env k = env2 k) →
      getLoop jobId m env s attempts fuel =
        getLoop jobId m env2 s attempts fuel := by
  intro fuel
  induction fuel with
  | zero => intro attempts _; rfl
  | succ n ih =>
    intro attempts h
    have h0 : env attempts = env2 attempts :=
      h attempts le_rfl (by omega)
    rw [getLoop, getLoop, h0]
    cases h2 : env2 attempts with
    | okG row => cases row <;> rfl
    | errG e =>
      dsimp only
      by_cases hlt : attempts + 1 < maxRetries
      · rw [if_pos hlt, if_pos hlt]
        exact ih (attempts + 1) (fun k hk1 hk2 => h k (by omega) (by omega))
      · rw [if_neg hlt, if_neg hlt]
    | thrownG e =>
      dsimp only
      by_cases hlt : attempts + 1 < maxRetries
      · rw [if_pos hlt, if_pos hlt]
        exact ih (attempts + 1) (fun k hk1 hk2 => h k (by omega) (by omega))
      · rw [if_neg hlt, if_neg hlt]

/-- Claim C5 (amended): `getJobStatus` reads the primary tier first, and a
record absent from the primary tier yields the `{status: 'not_found'}`
sentinel without any durable read (so a record present only in the durable
tier is not found); when the record is cached and the durable tier is in
use, a first successful durable read is promoted into the primary tier and
returned; and only the first `maxRetries = 3` durable outcomes can affect
the call (the attempt cap). -/
theorem getJobStatus_primary_first :
    (∀ (s : StoreState) (jobId : String) (env : ℕ → GetOutcome),
      s.mem jobId = none →
      getJobStatus s jobId env = (s, ⟨"not_found", none, none⟩)) ∧
    (∀ (s : StoreState) (jobId : String) (m : JobData)
      (env : ℕ → GetOutcome) (row : DbRow),
      s.mem jobId = some m → shouldUseSupabase s = true →
      env 0 = GetOutcome.okG (some row) →
      getJobStatus s jobId env =
        (setMem s jobId (syncFromRow jobId row), rowView row)) ∧
    (∀ (s : StoreState) (jobId : String) (env env2 : ℕ → GetOutcome),
      (∀ k, k < maxRetries → env k = env2 k) →
      getJobStatus s jobId env = getJobStatus s jobId env2) := by
  refine ⟨?_, ?_, ?_⟩
  · intro s jobId env h
    rw [getJobStatus, h]
  · intro s jobId m env row hm hu h0
    rw [getJobStatus, hm]
    dsimp only
    simp only [hu, Bool.not_true, Bool.false_eq_true, if_false]
    rw [show maxRetries = 2 + 1 from rfl, getLoop, h0]
  · intro s jobId env env2 h
    rw [getJobStatus, getJobStatus]
    cases hm : s.mem jobId with
    | none => rfl
    | some m =>
      dsimp only
      by_cases hu : shouldUseSupabase s
      · simp only [hu, Bool.not_true, Bool.false_eq_true, if_false]
        exact getLoop_env_congr jobId m env env2 s maxRetries 0
          (fun k _ hk => h k (by simpa using hk))
      · simp only [Bool.not_eq_true] at hu
        simp only [hu, Bool.not_false, if_true]

/-- Witness for C5: an empty primary tier yields `not_found` against a
durable tier that would answer, and a cached record is refreshed from a
successful durable read. -/
theorem getJobStatus_primary_first_witness :
    getJobStatus ⟨true, false, fun _ => none⟩ "job_1"
      (fun _ => GetOutcome.okG (some ⟨"completed", none, none, none, "t"⟩)) =
      (⟨true, false, fun _ => none⟩, ⟨"not_found", none, none⟩) ∧
    getJobStatus
      ⟨true, false, fun x => if x = "job_1" then
        some ⟨"job_1", "queued", none, none, some "t0", "t0"⟩ else none⟩
      "job_1"
      (fun _ => GetOutcome.okG (some ⟨"completed", none, none, none, "t"⟩)) =
      (setMem
        ⟨true, false, fun x => if x = "job_1" then
          some ⟨"job_1", "queued", none, none, some "t0", "t0"⟩ else none⟩
        "job_1"
        (syncFromRow "job_1" ⟨"completed", none, none, none, "t"⟩),
       rowView ⟨"completed", none, none, none, "t"⟩) :=
  ⟨getJobStatus_primary_first.1 ⟨true, false, fun _ => none⟩ "job_1"
    (fun _ => GetOutcome.okG (some ⟨"completed", none, none, none, "t"⟩)) rfl,
   getJobStatus_primary_first.2.1
    ⟨true, false, fun x => if x = "job_1" then
      some ⟨"job_1", "queued", none, none, some "t0", "t0"⟩ else none⟩
    "job_1" ⟨"job_1", "queued", none, none, some "t0", "t0"⟩
    (fun _ => GetOutcome.okG (some ⟨"completed", none, none, none, "t"⟩))
    ⟨"completed", none, none, none, "t"⟩ rfl rfl rfl⟩

/-- Counterexample to claim C6 as stated: the `created_at` lookup inside
`updateJobStatus` is a durable-tier operation; when it rejects with a
connectivity-class fetch `TypeError` while the upsert succeeds, the inner
`catch` only logs — the durable tier is NOT marked disabled. -/
theorem createdAt_lookup_failure_not_latched :
    ((updateJobStatus ⟨true, false, fun _ => none⟩ "job_1" "processing" none
        none "t" ⟨.thrownSel ⟨true, true, false⟩, .okW⟩).1).supabaseDisabled =
      false ∧
    isConnectivityError ⟨true, true, false⟩ = true := by
  constructor <;> rfl

/-- With an all-connectivity-failing environment and the loop entered with
`attempts + fuel = maxRetries`, the exhausted loop latches the disabled
flag. -/
theorem getLoop_all_fail_latches (jobId : String) (m : JobData)
    (env : ℕ → GetOutcome) (s : StoreState)
    (hfail : ∀ k, ∃ e, env k = GetOutcome.thrownG e ∧
      isConnectivityError e = true) :
    ∀ fuel attempts, attempts + fuel = maxRetries → 1 ≤ fuel →
      ((getLoop jobId m env s attempts fuel).1).supabaseDisabled = true := by
  intro fuel
  induction fuel with
  | zero => intro attempts _ h1; omega
  | succ n ih =>
    intro attempts hsum _
    obtain ⟨e, he, hc⟩ := hfail attempts
    rw [getLoop, he]
    dsimp only
    by_cases hlt : attempts + 1 < maxRetries
    · rw [if_pos hlt]
      exact ih (attempts + 1) (by omega) (by omega)
    · rw [if_neg hlt]
      show (handleSupabaseError s e).supabaseDisabled = true
      simp [handleSupabaseError, hc]

/-- Claim C6 (amended): a connectivity-class failure of the durable write
(the rejected insert/upsert) or of all read attempts of a `getJobStatus`
call latches `supabaseDisabled`; once the flag is set it is never cleared,
and every subsequent `createJob`, `updateJobStatus` and `getJobStatus`
ignores its durable environment entirely, operating on the primary tier
only.  (The `created_at` lookup inside `updateJobStatus` is the exception
the original claim misses: its connectivity failures are swallowed.) -/
theorem supabaseDisabled_latch :
    (∀ (s : StoreState) (jobId status : String) (res : Option JsAny)
      (err : Option String) (now : String) (sel : SelOutcome) (e : JsError),
      isConnectivityError e = true → shouldUseSupabase s = true →
      ((updateJobStatus s jobId status res err now
        ⟨sel, .thrownW e⟩).1).supabaseDisabled = true) ∧
    (∀ (s : StoreState) (jobId now : String) (e : JsError),
      isConnectivityError e = true → shouldUseSupabase s = true →
      ((createJob s jobId now ⟨.thrownW e⟩).1).supabaseDisabled = true) ∧
    (∀ (s : StoreState) (jobId : String) (m : JobData)
      (env : ℕ → GetOutcome),
      s.mem jobId = some m → shouldUseSupabase s = true →
      (∀ k, ∃ e, env k = GetOutcome.thrownG e ∧
        isConnectivityError e = true) →
      ((getJobStatus s jobId env).1).supabaseDisabled = true) ∧
    (∀ (s : StoreState), s.supabaseDisabled = true →
      (∀ (jobId status : String) (res : Option JsAny) (err : Option String)
        (now : String) (env env2 : UpdateEnv),
        updateJobStatus s jobId status res err now env =
          updateJobStatus s jobId status res err now env2 ∧
        ((updateJobStatus s jobId status res err now
          env).1).supabaseDisabled = true) ∧
      (∀ (jobId now : String) (env env2 : CreateEnv),
        createJob s jobId now env = createJob s jobId now env2 ∧
        ((createJob s jobId now env).1).supabaseDisabled = true) ∧
      (∀ (jobId : String) (env env2 : ℕ → GetOutcome),
        getJobStatus s jobId env = getJobStatus s jobId env2 ∧
        ((getJobStatus s jobId env).1).supabaseDisabled = true)) := by
  refine ⟨?_, ?_, ?_, ?_⟩
  · intro s jobId status res err now sel e hc hu
    have hu2 : shouldUseSupabase
        (setMem s jobId (mkMemoryJob s jobId status res err now)) = true := hu
    unfold updateJobStatus
    dsimp only
    simp only [hu2, Bool.not_true, Bool.false_eq_true, if_false]
    show (handleSupabaseError _ e).supabaseDisabled = true
    simp [handleSupabaseError, hc]
  · intro s jobId now e hc hu
    have hu2 : shouldUseSupabase (setMem s jobId
        { id := jobId, status := "queued", result := none, error := none
          created_at := some now, updated_at := now }) = true := hu
    unfold createJob
    dsimp only
    simp only [hu2, Bool.not_true, Bool.false_eq_true, if_false]
    show (handleSupabaseError _ e).supabaseDisabled = true
    simp [handleSupabaseError, hc]
  · intro s jobId m env hm hu hfail
    rw [getJobStatus, hm]
    dsimp only
    simp only [hu, Bool.not_true, Bool.false_eq_true, if_false]
    exact getLoop_all_fail_latches jobId m env s hfail maxRetries 0 rfl
      (by decide)
  · intro s hd
    have hu : ∀ j2 : JobData, ∀ jobId : String,
        shouldUseSupabase (setMem s jobId j2) = false := by
      intro j2 jobId
      simp [shouldUseSupabase, setMem, hd]
    have hus : shouldUseSupabase s = false := by
      simp [shouldUseSupabase, hd]
    refine ⟨?_, ?_, ?_⟩
    · intro jobId status res err now env env2
      unfold updateJobStatus
      dsimp only
      simp only [hu, Bool.not_false, if_true]
      exact ⟨trivial, hd⟩
    · intro jobId now env env2
      unfold createJob
      dsimp only
      simp only [hu, Bool.not_false, if_true]
      exact ⟨trivial, hd⟩
    · intro jobId env env2
      rw [getJobStatus, getJobStatus]
      cases hm : s.mem jobId with
      | none => exact ⟨rfl, hd⟩
      | some m =>
        dsimp only
        simp only [hus, Bool.not_false, if_true]
        exact ⟨trivial, hd⟩

/-- Witness for C6: a rejected upsert with a fetch `TypeError` latches the
flag, and on the latched state `getJobStatus` ignores its environment. -/
theorem supabaseDisabled_latch_witness :
    ((updateJobStatus ⟨true, false, fun _ => none⟩ "job_1" "processing" none
      none "t" ⟨.value none, .thrownW ⟨true, true, false⟩⟩).1).supabaseDisabled =
      true ∧
    getJobStatus ⟨true, true, fun _ => none⟩ "job_1"
        (fun _ => GetOutcome.okG (some ⟨"completed", none, none, none, "t"⟩)) =
      getJobStatus ⟨true, true, fun _ => none⟩ "job_1"
        (fun _ => GetOutcome.thrownG ⟨true, true, false⟩) :=
  ⟨supabaseDisabled_latch.1 ⟨true, false, fun _ => none⟩ "job_1" "processing"
    none none "t" (.value none) ⟨true, true, false⟩ rfl rfl,
   ((supabaseDisabled_latch.2.2.2 ⟨true, true, fun _ => none⟩ rfl).2.2 "job_1"
    (fun _ => GetOutcome.okG (some ⟨"completed", none, none, none, "t"⟩))
    (fun _ => GetOutcome.thrownG ⟨true, true, false⟩)).1⟩

/-! ## Days-array reconciliation (part_001, POST handler lines 252-327)

Only the synchronous generate-itinerary handler reconciles the `days` array
with the expected inclusive day count; the background job path
(`processItineraryJob`) marks jobs `completed` after coordinate
normalization alone. -/

/-- An activity record as built by the part_001 handler. -/
structure P1Act where
  id : String
  time : String
  title : String
  description : String
  location : String
  lat : ℚ
  lng : ℚ
  cost : ℚ
deriving DecidableEq, Repr

/-- A day entry of the part_001 itinerary. -/
structure P1Day where
  date : String
  activities : List P1Act
deriving DecidableEq, Repr

/-- The placeholder day synthesized for a missing date (part_001 lines
290-321); `destination` is the already-resolved
`itinerary.destination || surveyData.destination`. -/
def placeholderDay (destination : String) (i : ℕ) (formattedDate : String) :
    P1Day :=
  { date := formattedDate
    activities :=
      [ { id := "act-" ++ toString i ++ "-1"
          time := "Morning"
          title := "Explore " ++ destination ++ " - Day " ++
            toString (i + 1) ++ " Morning"
          description :=
            "Start your day with a visit to a popular local attraction."
          location := destination ++ " City Center"
          lat := 40.7128, lng := -74.0060, cost := 25 },
        { id := "act-" ++ toString i ++ "-2"
          time := "Afternoon"
          title := destination ++ " Afternoon Activity"
          description :=
            "Enjoy a relaxing afternoon activity based on your preferences."
          location := destination ++ " Park"
          lat := 40.7828, lng := -73.9654, cost := 15 },
        { id := "act-" ++ toString i ++ "-3"
          time := "Evening"
          title := destination ++ " Night Experience"
          description := "Experience the local nightlife and culture."
          location := destination ++ " Entertainment District"
          lat := 40.7590, lng := -73.9845, cost := 50 } ] }

/-- The find predicate of part_001 lines 279-282: the raw date string
matches, or its parse re-rendered as an ISO date matches (an unparseable
date would throw in the source and is modeled as a non-match). -/
def dateMatches (formattedDate : String) (day : P1Day) : Bool :=
  (day.date == formattedDate) ||
  (match parseDateISO day.date with
   | some (y, m, d) => isoDateOfDays (daysFromCivil y m d) == formattedDate
   | none => false)

/-- The rebuild loop of part_001 lines 271-323: for each expected offset,
reuse the first day whose date matches (normalizing its date formatting) or
synthesize a placeholder. -/
def fixDaysNeeded (expectedDays : ℕ) (startDay : ℤ) (destination : String)
    (days : List P1Day) : List P1Day :=
  (List.range expectedDays).map fun (i : ℕ) =>
    let formattedDate := isoDateOfDays (startDay + (i : ℤ))
    match days.find? (dateMatches formattedDate) with
    | some existing => { existing with date := formattedDate }
    | none => placeholderDay destination i formattedDate

/-- Lines 252-327 of part_001: recompute the expected inclusive day count
from the survey date range (same noon-normalized floor arithmetic as
`generatePrompt`) and rebuild `days` only when the lengths differ. -/
def reconcileDays (startStr endStr destination : String)
    (days : List P1Day) : Option (List P1Day) :=
  match parseDateISO startStr, parseDateISO endStr with
  | some (ys, ms, ds), some (ye, me, de) =>
    let startDay := daysFromCivil ys ms ds
    let endDay := daysFromCivil ye me de
    let diffTime : ℤ :=
      (endDay * 86400000 + 43200000) - (startDay * 86400000 + 43200000)
    let expectedDays : ℤ := Int.fdiv diffTime 86400000 + 1
    some (if (days.length : ℤ) = expectedDays then days
          else fixDaysNeeded expectedDays.toNat startDay destination days)
  | _, _ => none

/-- The day count carried by a stored `completed` result. -/
def resultItinDaysLen : Option JsAny → Option ℕ
  | some (.itinRes it _) => some ((it.days.getD []).length)
  | _ => none

/-- Counterexample to claim C9 as stated: the background job path marks the
job `completed` after `ensureValidCoordinates` alone — a 1-day model output
for the 2-day range 2024-06-01..2024-06-02 is stored as a completed job
whose itinerary still has 1 day, not the expected 2. -/
theorem job_completion_keeps_day_count :
    Option.map JobData.status
      ((processItineraryJobComplete ⟨false, false, fun _ => none⟩ "job_1"
        ⟨some [⟨some [.actA ⟨.missing⟩]⟩]⟩ "prompt" "t"
        ⟨.value none, .okW⟩).mem "job_1") = some "completed" ∧
    Option.bind
      ((processItineraryJobComplete ⟨false, false, fun _ => none⟩ "job_1"
        ⟨some [⟨some [.actA ⟨.missing⟩]⟩]⟩ "prompt" "t"
        ⟨.value none, .okW⟩).mem "job_1")
      (fun j => resultItinDaysLen j.result) = some 1 ∧
    generatePromptDuration "2024-06-01" "2024-06-02" = some 2 ∧
    (1 : ℕ) ≠ 2 := by
  refine ⟨rfl, rfl, by decide, by decide⟩

/-- Claim C9 (amended): the days-array reconciliation lives in the
synchronous generate-itinerary handler (part_001), not on the job path:
whenever the parsed `days` length differs from the expected inclusive day
count, that handler rebuilds the array to exactly the expected length,
reusing each day whose (format-normalized) date matches the expected date
and synthesizing placeholder days for missing dates; the background job
path stores the itinerary as `completed` without day-count reconciliation. -/
theorem reconcileDays_rebuild
    (startStr endStr destination : String) (days : List P1Day)
    (ys ye : ℤ) (ms ds me de : ℕ)
    (hs : parseDateISO startStr = some (ys, ms, ds))
    (he : parseDateISO endStr = some (ye, me, de))
    (hrange : daysFromCivil ys ms ds ≤ daysFromCivil ye me de)
    (hne : (days.length : ℤ) ≠
      daysFromCivil ye me de - daysFromCivil ys ms ds + 1) :
    ∃ result, reconcileDays startStr endStr destination days = some result ∧
      (result.length : ℤ) =
        daysFromCivil ye me de - daysFromCivil ys ms ds + 1 ∧
      (∀ i : ℕ,
        (i : ℤ) < daysFromCivil ye me de - daysFromCivil ys ms ds + 1 →
        result.get? i = some
          (match days.find?
              (dateMatches (isoDateOfDays (daysFromCivil ys ms ds + i))) with
           | some existing =>
              { existing with
                date := isoDateOfDays (daysFromCivil ys ms ds + i) }
           | none => placeholderDay destination i
              (isoDateOfDays (daysFromCivil ys ms ds + i)))) := by
  have hdiff : Int.fdiv
      ((daysFromCivil ye me de * 86400000 + 43200000) -
        (daysFromCivil ys ms ds * 86400000 + 43200000)) 86400000 =
      daysFromCivil ye me de - daysFromCivil ys ms ds := by
    have h1 : (daysFromCivil ye me de * 86400000 + 43200000) -
        (daysFromCivil ys ms ds * 86400000 + 43200000) =
        (daysFromCivil ye me de - daysFromCivil ys ms ds) * 86400000 := by
      ring
    rw [h1, Int.mul_fdiv_cancel _ (by norm_num)]
  have hexp : (0 : ℤ) ≤ daysFromCivil ye me de - daysFromCivil ys ms ds + 1 := by
    omega
  refine ⟨fixDaysNeeded (daysFromCivil ye me de - daysFromCivil ys ms ds
    + 1).toNat (daysFromCivil ys ms ds) destination days, ?_, ?_, ?_⟩
  · unfold reconcileDays
    rw [hs, he]
    dsimp only
    rw [hdiff, if_neg hne]
  · unfold fixDaysNeeded
    rw [List.length_map, List.length_range, Int.toNat_of_nonneg hexp]
  · intro i hi
    have hi2 : i < (daysFromCivil ye me de - daysFromCivil ys ms ds
        + 1).toNat := by
      omega
    unfold fixDaysNeeded
    rw [List.get?_map, List.get?_range hi2]
    rfl

/-- Witness for C9: the range 2024-06-01..2024-06-05 spans 5 inclusive days;
a 2-entry days array (2024-06-02 and 2024-06-04) is rebuilt to length 5. -/
theorem reconcileDays_rebuild_witness :
    ∃ result, reconcileDays "2024-06-01" "2024-06-05" "Paris"
      [⟨"2024-06-02", []⟩, ⟨"2024-06-04", []⟩] = some result ∧
      (result.length : ℤ) =
        daysFromCivil 2024 6 5 - daysFromCivil 2024 6 1 + 1 ∧
      (∀ i : ℕ,
        (i : ℤ) < daysFromCivil 2024 6 5 - daysFromCivil 2024 6 1 + 1 →
        result.get? i = some
          (match [(⟨"2024-06-02", []⟩ : P1Day), ⟨"2024-06-04", []⟩].find?
              (dateMatches (isoDateOfDays (daysFromCivil 2024 6 1 + i))) with
           | some existing =>
              { existing with
                date := isoDateOfDays (daysFromCivil 2024 6 1 + i) }
           | none => placeholderDay "Paris" i
              (isoDateOfDays (daysFromCivil 2024 6 1 + i)))) :=
  reconcileDays_rebuild "2024-06-01" "2024-06-05" "Paris"
    [⟨"2024-06-02", []⟩, ⟨"2024-06-04", []⟩] 2024 2024 6 1 6 5
    (by decide) (by decide) (by decide) (by decide)
